import Mathlib

/-!
Verification of the hetkinen note-voice lifecycle engine (src/src/App.tsx).

The voice controller is modelled as a pure state machine over an explicit
store of audio-graph source nodes.  Each `AudioBufferSourceNode` created by
the code becomes an entry in `VoiceState.nodes`; the three React refs
(`headSourceRef`, `loopSourceRef`, `tailSourceRef`) become `Option Nat`
indices into that store.  `start`/`stop` are the gesture handlers of
`NoteButton`; `fireEnded` delivers a platform "ended" event for one node,
running the callbacks the code registered on it.
-/

namespace Hetkinen

/-! ## Pitch and naming utilities (midiNoteToPitch, midiNoteToName) -/

/-- `midiNoteToPitch(note) = 440 * 2^((note - 69) / 12)` from the source. -/
noncomputable def midiNoteToPitch (note : ℤ) : ℝ :=
  440 * (2 : ℝ) ^ (((note : ℝ) - 69) / 12)

/-- The playback-rate ratio computed in `NoteButton.start`:
`midiNoteToPitch(note) / midiNoteToPitch(60)`. -/
noncomputable def pitchRatio (note : ℤ) : ℝ :=
  midiNoteToPitch note / midiNoteToPitch 60

/-- Append the sharp sign to a natural pitch-class name. -/
def sharp (s : String) : String := s ++ "#"

/-- The 12 pitch-class names from `midiNoteToName`, naturals interleaved
with their sharps. -/
def noteNames : List String :=
  ["C", sharp "C", "D", sharp "D", "E", "F",
   sharp "F", "G", sharp "G", "A", sharp "A", "B"]

/-- JavaScript array indexing with an integer index: `names[i]` is
`undefined` when `i` is negative or out of range. -/
def jsIndex (l : List String) (i : ℤ) : Option String :=
  if 0 ≤ i then l[i.toNat]? else none

/-- `midiNoteToName` from the source.  JavaScript `%` is the truncated
remainder (`Int.tmod`, negative for negative note), `Math.floor(note/12)`
is floor division (`Int.fdiv`), and interpolating the `undefined` obtained
from an out-of-range index yields the string "undefined". -/
def midiNoteToName (note : ℤ) : String :=
  ((jsIndex noteNames (note.tmod 12)).getD "undefined")
    ++ toString (note.fdiv 12 - 1)

/-- Modelled from the spec (for comparison with `midiNoteToName`): the
pitch-class name cycles through the 12 names with a true mathematical
modulus (valid for every integer, negatives included), octave
`floor(note/12) - 1`. -/
def specDisplayName (note : ℤ) : String :=
  noteNames.getD (note.emod 12).toNat "undefined"
    ++ toString (note.fdiv 12 - 1)

/-! ## Audio-graph node model -/

/-- Which sample buffer a source node is bound to. -/
inductive BufferKind
  | head
  | loop
  | tail
  deriving DecidableEq, Repr

/-- A callback registered on a source node's "ended" event.
`startLoop j` is the closure `() => loopSource.start()` registered by
`start` (it captures the loop node itself, index `j`);
`clearTailRef` is `() => stopSourceRef(tailSourceRef)` assigned by `stop`
(it captures the ref, read at fire time). -/
inductive EndAction
  | startLoop (j : Nat)
  | clearTailRef
  deriving DecidableEq, Repr

/-- One `AudioBufferSourceNode`.  `connections` is the list of destination
nodes it is connected to (empty after `disconnect()`); `started` records
whether `start()` has ever been called on it; `playing` is true while it
produces output. -/
structure SourceNode where
  buffer : BufferKind
  loopFlag : Bool
  rate : ℚ
  connections : List Nat
  started : Bool
  playing : Bool
  endedListener : Option EndAction
  onended : Option EndAction
  deriving DecidableEq, Repr

/-- `node.start()`: throws `InvalidStateError` when the node was already
started, otherwise schedules playback. -/
def startNode (n : SourceNode) : Except String SourceNode :=
  if n.started then Except.error "InvalidStateError"
  else Except.ok { n with started := true, playing := true }

/-- `node.stop()`: throws `InvalidStateError` when the node was never
started, otherwise halts playback (a second `stop` is a no-op). -/
def stopNode (n : SourceNode) : Except String SourceNode :=
  if n.started then Except.ok { n with playing := false }
  else Except.error "InvalidStateError"

/-- `node.disconnect()`: removes every outgoing connection; never throws. -/
def disconnectNode (n : SourceNode) : SourceNode :=
  { n with connections := [] }

/-- `createSourceNode` from the source: a fresh node bound to `buffer`,
with `playbackRate.value = rate`, connected to every destination node. -/
def createSourceNode (buffer : BufferKind) (rate : ℚ) (dests : List Nat)
    (loopFlag : Bool) : SourceNode :=
  { buffer := buffer
    loopFlag := loopFlag
    rate := rate
    connections := dests
    started := false
    playing := false
    endedListener := none
    onended := none }

/-! ## Per-key voice state (`NoteButton`'s refs plus the shared context) -/

/-- The mutable state one `NoteButton` owns: the shared audio context's
running flag, the store of every node created so far, and the three refs. -/
structure VoiceState where
  ctxRunning : Bool
  nodes : List SourceNode
  headRef : Option Nat
  loopRef : Option Nat
  tailRef : Option Nat
  deriving DecidableEq, Repr

/-- The `IDLE` state: no nodes were created yet, all three refs are null. -/
def initialState : VoiceState :=
  { ctxRunning := false
    nodes := []
    headRef := none
    loopRef := none
    tailRef := none }

/-- The node-store effect of `stopSourceRef`: when the ref holds a node,
`try { node.stop() } catch { /- maybe never started -/ }` followed by
`node.disconnect()`. -/
def stopRefNodes (nodes : List SourceNode) (ref : Option Nat) :
    List SourceNode :=
  match ref with
  | none => nodes
  | some i =>
    match nodes[i]? with
    | none => nodes
    | some n =>
      let n1 := match stopNode n with
        | Except.ok m => m
        | Except.error _ => n
      nodes.set i (disconnectNode n1)

/-- `stopSourceRef(sourceRef)` from the source: stop-and-disconnect the
referenced node (tolerating a never-started node), then null the ref. -/
def stopSourceRef (nodes : List SourceNode) (ref : Option Nat) :
    List SourceNode × Option Nat :=
  (stopRefNodes nodes ref, none)

/-- `NoteButton.start`: resume the context if suspended, build head, loop
and tail nodes at rate `pitch` connected to every node of `dests`, start
the head at once, register the "start loop on head-end" listener, pre-arm
the tail, and point the three refs at the new nodes.  The previous refs
are overwritten without any teardown. -/
def start (pitch : ℚ) (dests : List Nat) (s : VoiceState) : VoiceState :=
  let s0 := { s with ctxRunning := true }
  let headId := s0.nodes.length
  let loopId := headId + 1
  let tailId := headId + 2
  -- headSource.start(): a freshly created node cannot throw here.
  let headSource :=
    { createSourceNode BufferKind.head pitch dests false with
        started := true, playing := true,
        endedListener := some (EndAction.startLoop loopId) }
  let loopSource := createSourceNode BufferKind.loop pitch dests true
  let tailSource := createSourceNode BufferKind.tail pitch dests false
  { s0 with
      nodes := s0.nodes ++ [headSource, loopSource, tailSource]
      headRef := some headId
      loopRef := some loopId
      tailRef := some tailId }

/-- The tail-arming step of `NoteButton.stop`: when the tail ref holds a
node, `try { tailSource.start() } catch { /- maybe already started -/ }`
and then assign `tailSource.onended = () => stopSourceRef(tailSourceRef)`.
The tail ref itself is left in place. -/
def armTail (nodes : List SourceNode) (ref : Option Nat) :
    List SourceNode :=
  match ref with
  | none => nodes
  | some i =>
    match nodes[i]? with
    | none => nodes
    | some tailSource =>
      let t1 := match startNode tailSource with
        | Except.ok m => m
        | Except.error _ => tailSource
      nodes.set i { t1 with onended := some EndAction.clearTailRef }

/-- `NoteButton.stop`: stop-and-disconnect the head ref, then the loop
ref, then start the pre-armed tail and register its completion callback. -/
def stop (s : VoiceState) : VoiceState :=
  let p1 := stopSourceRef s.nodes s.headRef
  let p2 := stopSourceRef p1.1 s.loopRef
  { s with
      nodes := armTail p2.1 s.tailRef
      headRef := p1.2
      loopRef := p2.2 }

/-- Run one registered callback. `startLoop j` calls `start()` on node `j`
(an exception escapes the listener and leaves the state unchanged);
`clearTailRef` runs `stopSourceRef(tailSourceRef)` on the current ref. -/
def runEndAction (a : EndAction) (s : VoiceState) : VoiceState :=
  match a with
  | EndAction.startLoop j =>
    match s.nodes[j]? with
    | none => s
    | some n =>
      match startNode n with
      | Except.ok m => { s with nodes := s.nodes.set j m }
      | Except.error _ => s
  | EndAction.clearTailRef =>
    let p := stopSourceRef s.nodes s.tailRef
    { s with nodes := p.1, tailRef := p.2 }

/-- The platform delivers the "ended" event for node `i` (after natural
completion or after `stop()` was called on it): playback ceases and the
registered callbacks run.  A never-started node never fires. -/
def fireEnded (i : Nat) (s : VoiceState) : VoiceState :=
  match s.nodes[i]? with
  | none => s
  | some n =>
    if n.started then
      let s1 := { s with nodes := s.nodes.set i { n with playing := false } }
      let s2 := match n.endedListener with
        | some a => runEndAction a s1
        | none => s1
      match n.onended with
      | some a => runEndAction a s2
      | none => s2
    else s

/-- A node is audible when it is playing and connected to the graph. -/
def audible (n : SourceNode) : Bool :=
  n.playing && !n.connections.isEmpty

/-- How many nodes of the voice are currently audible. -/
def audibleCount (s : VoiceState) : Nat :=
  (s.nodes.filter audible).length

/-- The nodes of a given buffer kind that are live (playing and connected). -/
def liveNodesOfKind (s : VoiceState) (k : BufferKind) : List SourceNode :=
  s.nodes.filter (fun n => audible n && n.buffer == k)

/-- The playing flag of node `i`, if it exists. -/
def nodePlaying (s : VoiceState) (i : Nat) : Option Bool :=
  (s.nodes[i]?).map SourceNode.playing

/-- The started flag of node `i`, if it exists. -/
def nodeStarted (s : VoiceState) (i : Nat) : Option Bool :=
  (s.nodes[i]?).map SourceNode.started

/-- The connection list of node `i`, if it exists. -/
def nodeConnections (s : VoiceState) (i : Nat) : Option (List Nat) :=
  (s.nodes[i]?).map SourceNode.connections

/-- The `onended` callback of node `i`, if the node exists. -/
def nodeOnended (s : VoiceState) (i : Nat) : Option (Option EndAction) :=
  (s.nodes[i]?).map SourceNode.onended

/-- A loop node as `start` leaves it before the head completes: created,
connected, never started. -/
def freshLoopNode : SourceNode := createSourceNode BufferKind.loop 1 [0] true

/-- A tail node that a previous `stop` already started. -/
def startedTailNode : SourceNode :=
  { createSourceNode BufferKind.tail 1 [0] false with
      started := true, playing := true }

/-! ## Audio graph bootstrapper (the reverb effect in `App`) -/

/-- The fixed nodes of the reverb topology. -/
inductive ANode
  | output
  | convolver
  | dryGain
  | wetGain
  deriving DecidableEq, Repr

/-- The graph the `App` effect builds once the impulse-response buffer is
available, plus the resulting destination set. -/
structure ReverbGraph where
  convolverHasBuffer : Bool
  dryGainValue : ℚ
  wetGainValue : ℚ
  edges : List (ANode × ANode)
  destinationSet : List ANode
  deriving DecidableEq, Repr

/-- Before the effect runs, voices connect straight to the output. -/
def initialDestinationSet : List ANode := [ANode.output]

/-- The one-time build from the source: a convolver bound to the impulse
response connected to the output, a dry gain of 0.8 connected to the
output, a wet gain of 0.2 connected to the convolver, and
`setDestinationNodes([dryGainNode, wetGainNode])`. -/
def buildReverb : ReverbGraph :=
  { convolverHasBuffer := true
    dryGainValue := 4 / 5
    wetGainValue := 1 / 5
    edges :=
      [(ANode.convolver, ANode.output),
       (ANode.dryGain, ANode.output),
       (ANode.wetGain, ANode.convolver)]
    destinationSet := [ANode.dryGain, ANode.wetGain] }

/-- The number of distinct routes from `n` to the output along `edges`,
with `fuel` bounding the path length. -/
def countPathsToOutput (edges : List (ANode × ANode)) :
    Nat → ANode → Nat
  | 0, _ => 0
  | _ + 1, ANode.output => 1
  | fuel + 1, n =>
    ((edges.filter (fun e => e.1 == n)).map
      (fun e => countPathsToOutput edges fuel e.2)).sum

/-! ## App rendering (sample loading and the key grid) -/

/-- The observable state of one `useSampleData` load: still in flight,
resolved with a decoded buffer, or permanently failed (fetch or decode
error). -/
inductive LoadState
  | pending
  | resolved
  | failed
  deriving DecidableEq, Repr

/-- Whether the SWR result carries decoded data (`result.data` truthy). -/
def hasData : LoadState → Bool
  | LoadState.resolved => true
  | LoadState.pending => false
  | LoadState.failed => false

/-- What `App` returns. -/
inductive AppView
  | loadingSamples
  | keyGrid
  deriving DecidableEq, Repr

/-- The render logic of `App`: `if (!(head.data && loop.data && tail.data))
return "Loading samples..."`, otherwise the grid of `NoteButton`s.  The
convolution load is not consulted here (it only feeds the reverb effect). -/
def renderApp (head loopS tailS _conv : LoadState) : AppView :=
  if hasData head && hasData loopS && hasData tailS then AppView.keyGrid
  else AppView.loadingSamples

/-! ## Theorems -/

/-- C8: for every integer `n`, `pitchRatio (n + 12) = 2 * pitchRatio n`
(octave doubling), with `pitchRatio n = midiNoteToPitch n /
midiNoteToPitch 60` and `midiNoteToPitch n = 440 * 2 ^ ((n - 69) / 12)`. -/
theorem pitchRatio_octave_doubling (n : ℤ) :
    pitchRatio (n + 12) = 2 * pitchRatio n := by
  unfold pitchRatio midiNoteToPitch
  have h2 : (0 : ℝ) < 2 := by norm_num
  have key : (2 : ℝ) ^ ((((n + 12 : ℤ) : ℝ) - 69) / 12)
      = 2 * (2 : ℝ) ^ (((n : ℝ) - 69) / 12) := by
    push_cast
    rw [show ((n : ℝ) + 12 - 69) / 12 = ((n : ℝ) - 69) / 12 + 1 by ring]
    rw [Real.rpow_add h2, Real.rpow_one]
    ring
  rw [key]
  ring

/-- C5 counterexample: at note `-1` the source's `midiNoteToName` does not
produce the cyclic pitch-class name the claim describes (`"B-2"`, i.e.
`noteNames[(-1) mod 12] = "B"` with octave `floor(-1/12) - 1 = -2`); the
negative JavaScript remainder indexes past the array and yields
`"undefined-2"` instead. -/
theorem midiNoteToName_neg_one_ne_spec :
    midiNoteToName (-1) ≠ specDisplayName (-1) ∧
      midiNoteToName (-1) = "undefined-2" ∧ specDisplayName (-1) = "B-2" := by
  refine ⟨?_, rfl, rfl⟩
  decide

/-- C5 (amended): `midiNoteToName` is total, and for every non-negative
integer it agrees with the spec's description (cyclic names indexed by
`n mod 12`, octave `floor(n/12) - 1`); for negative notes the JavaScript
remainder is negative, the array lookup yields `undefined`, and the pitch
class degenerates to the string "undefined". -/
theorem midiNoteToName_eq_spec_of_nonneg (n : ℤ) (h : 0 ≤ n) :
    midiNoteToName n = specDisplayName n := by
  obtain ⟨m, rfl⟩ := Int.eq_ofNat_of_zero_le h
  unfold midiNoteToName specDisplayName jsIndex
  have ht : (m : ℤ).tmod 12 = ((m % 12 : ℕ) : ℤ) := by
    rw [Int.ofNat_tmod]; rfl
  have he : (m : ℤ).emod 12 = ((m % 12 : ℕ) : ℤ) := (Int.natCast_mod m 12).symm
  rw [ht, he]
  simp only [Int.toNat_ofNat, Int.ofNat_nonneg, if_pos]
  simp only [List.getD_eq_getElem?_getD, List.get?_eq_getElem?]

/-- C5 witness: the amended theorem at note 60, which the spec pins to
`"C4"`. -/
theorem midiNoteToName_eq_spec_witness :
    midiNoteToName 60 = specDisplayName 60 ∧ midiNoteToName 60 = "C4" :=
  ⟨midiNoteToName_eq_spec_of_nonneg 60 (by decide), rfl⟩

/-- C7: before the impulse response resolves the destination set is exactly
`[output]`; the one-time build yields exactly the dry and wet gain nodes
(gains 0.8 and 0.2 summing to 1), with dry connected to the output, wet
connected to the convolver, the convolver (bound to the impulse response)
connected to the output, and the routing from the destination set reaching
the output exactly twice. -/
theorem buildReverb_routing :
    initialDestinationSet = [ANode.output] ∧
    buildReverb.destinationSet = [ANode.dryGain, ANode.wetGain] ∧
    buildReverb.convolverHasBuffer = true ∧
    buildReverb.dryGainValue = 4 / 5 ∧
    buildReverb.wetGainValue = 1 / 5 ∧
    buildReverb.dryGainValue + buildReverb.wetGainValue = 1 ∧
    (ANode.dryGain, ANode.output) ∈ buildReverb.edges ∧
    (ANode.wetGain, ANode.convolver) ∈ buildReverb.edges ∧
    (ANode.convolver, ANode.output) ∈ buildReverb.edges ∧
    (buildReverb.destinationSet.map
      (countPathsToOutput buildReverb.edges 4)).sum = 2 := by
  refine ⟨rfl, rfl, rfl, rfl, rfl, ?_, ?_, ?_, ?_, ?_⟩
  · show (4 : ℚ) / 5 + 1 / 5 = 1
    norm_num
  · decide
  · decide
  · decide
  · decide

/-- C4 counterexample: the grid is rendered as soon as the three sample
buffers resolve, even while the impulse-response load is still pending, so
the app does not stay on the loading display "until all four buffers
resolve"; and a permanently failed load keeps rendering the loading
display — there is no distinct "could not load" error view. -/
theorem renderApp_claim_fails :
    renderApp LoadState.resolved LoadState.resolved LoadState.resolved
        LoadState.pending = AppView.keyGrid ∧
      AppView.keyGrid ≠ AppView.loadingSamples ∧
      renderApp LoadState.failed LoadState.resolved LoadState.resolved
        LoadState.resolved = AppView.loadingSamples := by
  exact ⟨rfl, by decide, rfl⟩

/-- C4 (amended): `App` renders the key grid exactly when the head, loop
and tail buffers have all resolved — the impulse-response load never gates
rendering — and in every other load state (still loading or permanently
failed) it renders the non-crashing loading display, so no voice can be
started; a failure is never surfaced as a distinct error view. -/
theorem renderApp_characterization (head loopS tailS conv : LoadState) :
    (renderApp head loopS tailS conv = AppView.keyGrid ↔
      (hasData head = true ∧ hasData loopS = true ∧ hasData tailS = true)) ∧
    (hasData head = false ∨ hasData loopS = false ∨ hasData tailS = false →
      renderApp head loopS tailS conv = AppView.loadingSamples) := by
  cases head <;> cases loopS <;> cases tailS <;> cases conv <;> decide

/-- C4 witness: the amended characterization applied with a failed head
load: the app renders the loading display. -/
theorem renderApp_characterization_witness :
    renderApp LoadState.failed LoadState.resolved LoadState.resolved
      LoadState.resolved = AppView.loadingSamples :=
  (renderApp_characterization LoadState.failed LoadState.resolved
    LoadState.resolved LoadState.resolved).2 (Or.inl rfl)

/-! ### Voice lifecycle theorems -/

/-- `armTail` with an empty slot does nothing. -/
theorem armTail_of_get_none (nodes : List SourceNode) (i : Nat)
    (hg : nodes[i]? = none) : armTail nodes (some i) = nodes := by
  simp [armTail, hg]

/-- `armTail` on an occupied slot: try to start the node and stamp on the
completion callback. -/
theorem armTail_of_get_some (nodes : List SourceNode) (i : Nat)
    (n : SourceNode) (hg : nodes[i]? = some n) :
    armTail nodes (some i) = nodes.set i
      { (match startNode n with
          | Except.ok m => m
          | Except.error _ => n) with
        onended := some EndAction.clearTailRef } := by
  simp [armTail, hg]

/-- Whether or not `start()` threw, the node is started afterwards. -/
theorem started_of_tryStart (n : SourceNode) :
    ((match startNode n with
      | Except.ok m => m
      | Except.error _ => n) : SourceNode).started = true := by
  unfold startNode
  cases hs : n.started with
  | false => simp [hs]
  | true => simp [hs]

/-- Re-arming an already started-and-stamped tail node changes nothing:
the `start()` throws (swallowed) and the callback is re-assigned to the
same value. -/
theorem arm_started_fixed (t1 : SourceNode) (h : t1.started = true) :
    ({ (match startNode ({ t1 with onended := some EndAction.clearTailRef }) with
        | Except.ok y => y
        | Except.error _ => { t1 with onended := some EndAction.clearTailRef }) with
      onended := some EndAction.clearTailRef })
    = { t1 with onended := some EndAction.clearTailRef } := by
  unfold startNode
  simp [h]

/-- Applying the tail-arming step twice equals applying it once. -/
theorem armTail_armTail (nodes : List SourceNode) (r : Option Nat) :
    armTail (armTail nodes r) r = armTail nodes r := by
  cases r with
  | none => rfl
  | some i =>
    cases hg : nodes[i]? with
    | none => rw [armTail_of_get_none nodes i hg, armTail_of_get_none nodes i hg]
    | some n =>
      have hlt : i < nodes.length := by
        obtain ⟨hlt, _⟩ := List.getElem?_eq_some.mp hg
        exact hlt
      have h1 := armTail_of_get_some nodes i n hg
      have hg2 : (nodes.set i
          ({ (match startNode n with
            | Except.ok m => m
            | Except.error _ => n) with
            onended := some EndAction.clearTailRef }))[i]?
          = some ({ (match startNode n with
            | Except.ok m => m
            | Except.error _ => n) with
            onended := some EndAction.clearTailRef }) :=
        List.getElem?_set_eq_of_lt _ (by simpa using hlt)
      have h2 := armTail_of_get_some _ i _ hg2
      rw [h1, h2, arm_started_fixed _ (started_of_tryStart n), List.set_set]

/-- C1: the claim fails on the code.  `start` never tears the previous
voice down: after two consecutive `start` calls on the same key both head
nodes are live (playing and connected), and once the first head finishes
its `ended` listener starts the first loop node, which stays live even
after `stop` — `stop` only reaches the nodes the overwritten refs point
at, so one loop node keeps sounding forever. -/
theorem double_start_leaves_previous_voice_live :
    (liveNodesOfKind (start 1 [0] (start 1 [0] initialState))
      BufferKind.head).length = 2 ∧
    (liveNodesOfKind (stop (fireEnded 0 (start 1 [0] (start 1 [0] initialState))))
      BufferKind.loop).length = 1 := by
  decide

/-- C2: `start` followed by `stop` before the head completes leaves no
residual audio.  `stop` disconnects the loop node before the stale
"start loop on head-end" callback can fire, so when that callback does
fire it starts a node with no connection to the graph (inaudible), and
after the tail finishes the key is `IDLE`: every ref is null and no node
is audible. -/
theorem stop_before_head_end_no_residual_audio (p : ℚ) (d : List Nat) :
    nodeConnections (fireEnded 0 (stop (start p d initialState))) 1 = some [] ∧
    audibleCount (fireEnded 2 (fireEnded 0 (stop (start p d initialState)))) = 0 ∧
    (fireEnded 2 (fireEnded 0 (stop (start p d initialState)))).headRef = none ∧
    (fireEnded 2 (fireEnded 0 (stop (start p d initialState)))).loopRef = none ∧
    (fireEnded 2 (fireEnded 0 (stop (start p d initialState)))).tailRef = none := by
  have h1 : start p d initialState =
      ⟨true, [⟨BufferKind.head, false, p, d, true, true,
                some (EndAction.startLoop 1), none⟩,
              ⟨BufferKind.loop, true, p, d, false, false, none, none⟩,
              ⟨BufferKind.tail, false, p, d, false, false, none, none⟩],
        some 0, some 1, some 2⟩ := rfl
  have h2 : stop (⟨true, [⟨BufferKind.head, false, p, d, true, true,
                some (EndAction.startLoop 1), none⟩,
              ⟨BufferKind.loop, true, p, d, false, false, none, none⟩,
              ⟨BufferKind.tail, false, p, d, false, false, none, none⟩],
        some 0, some 1, some 2⟩ : VoiceState) =
      ⟨true, [⟨BufferKind.head, false, p, [], true, false,
                some (EndAction.startLoop 1), none⟩,
              ⟨BufferKind.loop, true, p, [], false, false, none, none⟩,
              ⟨BufferKind.tail, false, p, d, true, true, none,
                some EndAction.clearTailRef⟩],
        none, none, some 2⟩ := rfl
  have h3 : fireEnded 0 (⟨true, [⟨BufferKind.head, false, p, [], true, false,
                some (EndAction.startLoop 1), none⟩,
              ⟨BufferKind.loop, true, p, [], false, false, none, none⟩,
              ⟨BufferKind.tail, false, p, d, true, true, none,
                some EndAction.clearTailRef⟩],
        none, none, some 2⟩ : VoiceState) =
      ⟨true, [⟨BufferKind.head, false, p, [], true, false,
                some (EndAction.startLoop 1), none⟩,
              ⟨BufferKind.loop, true, p, [], true, true, none, none⟩,
              ⟨BufferKind.tail, false, p, d, true, true, none,
                some EndAction.clearTailRef⟩],
        none, none, some 2⟩ := rfl
  have h4 : fireEnded 2 (⟨true, [⟨BufferKind.head, false, p, [], true, false,
                some (EndAction.startLoop 1), none⟩,
              ⟨BufferKind.loop, true, p, [], true, true, none, none⟩,
              ⟨BufferKind.tail, false, p, d, true, true, none,
                some EndAction.clearTailRef⟩],
        none, none, some 2⟩ : VoiceState) =
      ⟨true, [⟨BufferKind.head, false, p, [], true, false,
                some (EndAction.startLoop 1), none⟩,
              ⟨BufferKind.loop, true, p, [], true, true, none, none⟩,
              ⟨BufferKind.tail, false, p, [], true, false, none,
                some EndAction.clearTailRef⟩],
        none, none, none⟩ := rfl
  rw [h1, h2, h3, h4]
  exact ⟨rfl, rfl, rfl, rfl, rfl⟩

/-- C3: full lifecycle.  After `start`, head completion (loop playing),
and `stop`: the head and loop nodes are stopped and disconnected, the
pre-armed tail node is started and carries the completion callback; when
the tail's completion fires, the tail is stopped and disconnected, all
three refs are null and nothing is audible — the key is `IDLE`. -/
theorem release_after_sustain_reaches_idle (p : ℚ) (d : List Nat) :
    nodePlaying (fireEnded 0 (start p d initialState)) 1 = some true ∧
    nodePlaying (stop (fireEnded 0 (start p d initialState))) 0 = some false ∧
    nodeConnections (stop (fireEnded 0 (start p d initialState))) 0 = some [] ∧
    nodePlaying (stop (fireEnded 0 (start p d initialState))) 1 = some false ∧
    nodeConnections (stop (fireEnded 0 (start p d initialState))) 1 = some [] ∧
    nodeStarted (stop (fireEnded 0 (start p d initialState))) 2 = some true ∧
    nodeOnended (stop (fireEnded 0 (start p d initialState))) 2
      = some (some EndAction.clearTailRef) ∧
    (stop (fireEnded 0 (start p d initialState))).tailRef = some 2 ∧
    (fireEnded 2 (stop (fireEnded 0 (start p d initialState)))).headRef = none ∧
    (fireEnded 2 (stop (fireEnded 0 (start p d initialState)))).loopRef = none ∧
    (fireEnded 2 (stop (fireEnded 0 (start p d initialState)))).tailRef = none ∧
    nodePlaying (fireEnded 2 (stop (fireEnded 0 (start p d initialState)))) 2
      = some false ∧
    nodeConnections (fireEnded 2 (stop (fireEnded 0 (start p d initialState)))) 2
      = some [] ∧
    audibleCount (fireEnded 2 (stop (fireEnded 0 (start p d initialState)))) = 0 := by
  have h1 : start p d initialState =
      ⟨true, [⟨BufferKind.head, false, p, d, true, true,
                some (EndAction.startLoop 1), none⟩,
              ⟨BufferKind.loop, true, p, d, false, false, none, none⟩,
              ⟨BufferKind.tail, false, p, d, false, false, none, none⟩],
        some 0, some 1, some 2⟩ := rfl
  have h2 : fireEnded 0 (⟨true, [⟨BufferKind.head, false, p, d, true, true,
                some (EndAction.startLoop 1), none⟩,
              ⟨BufferKind.loop, true, p, d, false, false, none, none⟩,
              ⟨BufferKind.tail, false, p, d, false, false, none, none⟩],
        some 0, some 1, some 2⟩ : VoiceState) =
      ⟨true, [⟨BufferKind.head, false, p, d, true, false,
                some (EndAction.startLoop 1), none⟩,
              ⟨BufferKind.loop, true, p, d, true, true, none, none⟩,
              ⟨BufferKind.tail, false, p, d, false, false, none, none⟩],
        some 0, some 1, some 2⟩ := rfl
  have h3 : stop (⟨true, [⟨BufferKind.head, false, p, d, true, false,
                some (EndAction.startLoop 1), none⟩,
              ⟨BufferKind.loop, true, p, d, true, true, none, none⟩,
              ⟨BufferKind.tail, false, p, d, false, false, none, none⟩],
        some 0, some 1, some 2⟩ : VoiceState) =
      ⟨true, [⟨BufferKind.head, false, p, [], true, false,
                some (EndAction.startLoop 1), none⟩,
              ⟨BufferKind.loop, true, p, [], true, false, none, none⟩,
              ⟨BufferKind.tail, false, p, d, true, true, none,
                some EndAction.clearTailRef⟩],
        none, none, some 2⟩ := rfl
  have h4 : fireEnded 2 (⟨true, [⟨BufferKind.head, false, p, [], true, false,
                some (EndAction.startLoop 1), none⟩,
              ⟨BufferKind.loop, true, p, [], true, false, none, none⟩,
              ⟨BufferKind.tail, false, p, d, true, true, none,
                some EndAction.clearTailRef⟩],
        none, none, some 2⟩ : VoiceState) =
      ⟨true, [⟨BufferKind.head, false, p, [], true, false,
                some (EndAction.startLoop 1), none⟩,
              ⟨BufferKind.loop, true, p, [], true, false, none, none⟩,
              ⟨BufferKind.tail, false, p, [], true, false, none,
                some EndAction.clearTailRef⟩],
        none, none, none⟩ := rfl
  rw [h1, h2, h3, h4]
  exact ⟨rfl, rfl, rfl, rfl, rfl, rfl, rfl, rfl, rfl, rfl, rfl, rfl, rfl, rfl⟩

/-- C6: the two benign failure classes inside `stop` are swallowed.
Stopping a node that was never started throws `InvalidStateError` at the
platform level, but `stopSourceRef` catches it and merely disconnects the
node; starting the tail a second time throws likewise, but the catch in
`stop` swallows it, so the node is not started twice — its state is
unchanged except for re-assigning the same completion callback.  `stop`
itself is a total function, so neither error propagates out of it. -/
theorem stop_swallows_benign_noops (nodes : List SourceNode) (i : Nat)
    (n : SourceNode) (hg : nodes[i]? = some n) :
    (n.started = false →
      stopNode n = Except.error "InvalidStateError" ∧
      stopRefNodes nodes (some i) = nodes.set i (disconnectNode n)) ∧
    (n.started = true →
      startNode n = Except.error "InvalidStateError" ∧
      armTail nodes (some i) =
        nodes.set i { n with onended := some EndAction.clearTailRef }) := by
  constructor
  · intro h
    refine ⟨by simp [stopNode, h], ?_⟩
    simp [stopRefNodes, hg, stopNode, h]
  · intro h
    refine ⟨by simp [startNode, h], ?_⟩
    simp [armTail, hg, startNode, h]

/-- C6 witness: the swallowed no-ops on concrete nodes — a never-started
loop node is only disconnected, and an already-started tail node only
gets its callback re-stamped. -/
theorem stop_swallows_benign_noops_witness :
    stopRefNodes [freshLoopNode] (some 0) = [disconnectNode freshLoopNode] ∧
    armTail [startedTailNode] (some 0) =
      [{ startedTailNode with onended := some EndAction.clearTailRef }] := by
  constructor
  · exact ((stop_swallows_benign_noops [freshLoopNode] 0 freshLoopNode rfl).1 rfl).2
  · exact ((stop_swallows_benign_noops [startedTailNode] 0 startedTailNode rfl).2
      rfl).2

/-- C9: calling `stop` on a key in `IDLE` (all three refs null) raises no
error and is a strict no-op: the state, node store and graph connections
are untouched. -/
theorem stop_in_idle_is_noop (s : VoiceState) (hh : s.headRef = none)
    (hl : s.loopRef = none) (ht : s.tailRef = none) : stop s = s := by
  obtain ⟨c, ns, h, l, t⟩ := s
  cases hh; cases hl; cases ht
  rfl

/-- C9 witness: `stop` on the initial `IDLE` state. -/
theorem stop_in_idle_is_noop_witness : stop initialState = initialState :=
  stop_in_idle_is_noop initialState rfl rfl rfl

/-- C10: `stop` is idempotent on every voice state: a second immediate
`stop` finds the head and loop refs already null, its attempt to start
the already-started tail throws and is swallowed, and the re-assigned
completion callback equals the existing one, so the node handles and all
graph connections are exactly those after a single `stop`. -/
theorem stop_idempotent (s : VoiceState) : stop (stop s) = stop s := by
  show ({ s with
      nodes := armTail (armTail
        (stopRefNodes (stopRefNodes s.nodes s.headRef) s.loopRef) s.tailRef)
        s.tailRef
      headRef := none, loopRef := none } : VoiceState) =
    { s with
      nodes := armTail
        (stopRefNodes (stopRefNodes s.nodes s.headRef) s.loopRef) s.tailRef
      headRef := none, loopRef := none }
  rw [armTail_armTail]

/-- C10 witness: a second `stop` right after releasing a freshly started
voice changes nothing. -/
theorem stop_idempotent_witness :
    stop (stop (start 1 [0] initialState)) = stop (start 1 [0] initialState) :=
  stop_idempotent (start 1 [0] initialState)

/-- C2 witness: the quick-stop scenario at pitch 1 connected to the
output: nothing is audible once the tail has finished. -/
theorem stop_before_head_end_no_residual_audio_witness :
    audibleCount (fireEnded 2 (fireEnded 0 (stop (start 1 [0] initialState)))) = 0 :=
  (stop_before_head_end_no_residual_audio 1 [0]).2.1

/-- C3 witness: the full lifecycle at pitch 1 connected to the output
ends with nothing audible. -/
theorem release_after_sustain_reaches_idle_witness :
    audibleCount (fireEnded 2 (stop (fireEnded 0 (start 1 [0] initialState)))) = 0 :=
  (release_after_sustain_reaches_idle 1 [0]).2.2.2.2.2.2.2.2.2.2.2.2.2

/-- C8 witness: octave doubling at note 0. -/
theorem pitchRatio_octave_doubling_witness :
    pitchRatio (0 + 12) = 2 * pitchRatio 0 :=
  pitchRatio_octave_doubling 0

end Hetkinen
